import Mathlib

/-! Verification development for the CCC protest dashboard (src/app.py).

The development shallowly embeds the data-transformation core of the app:
the row model after the load-time coercions (app.py lines 18-36), the
filter_data function (515-579), the aggregate_events_for_map function
(581-637), the time-series and KPI computations of the update_all callback
(661-1004), and the CSV export column sets of download_csv (1115-1130).
Pandas specifics that matter are modelled explicitly: NaN/NaT cells are
Option.none, comparisons with a missing date are false, astype(str) of a
missing value renders as the string nan, and sums over all-missing groups
are zero. -/

namespace CCCDash

/-- Lowercasing character by character; models Python str.lower and the
pandas .str.lower() used at load time and in the filters. -/
def strLower (s : String) : String := String.mk (s.data.map Char.toLower)

/-- Decimal digit character for n % 10. -/
def digitChar (n : Nat) : Char := Char.ofNat (48 + n % 10)

/-- Decimal digits of a positive natural number, with explicit fuel equal
to the number itself (enough since n / 10 shrinks). -/
def natCharsAux : Nat → Nat → List Char
  | 0, _ => []
  | _ + 1, 0 => []
  | fuel + 1, n + 1 => natCharsAux fuel ((n + 1) / 10) ++ [digitChar (n + 1)]

def natChars (n : Nat) : List Char := if n = 0 then ['0'] else natCharsAux n n

def intChars (i : Int) : List Char :=
  if i < 0 then '-' :: natChars i.natAbs else natChars i.natAbs

/-- Decimal rendering of a rational number; stands in for Python str() of
the float values held in the numeric-coerced columns.  Only two properties
of the rendering are used by any proof: it is a fixed pure function, and
its first character is a digit or a minus sign, so it can never collide
with the placeholder word tested at app.py 542/544. -/
def ratChars (q : ℚ) : List Char :=
  intChars q.num ++ (if q.den = 1 then [] else '/' :: natChars q.den)

/-- Models pandas astype(str) on a numeric-coerced column: a missing value
renders as the string nan, a number as its decimal form. -/
def pandasStr : Option ℚ → String
  | none => "nan"
  | some q => String.mk (ratChars q)

/-- Models Python str() on an object-column value: NaN renders as nan. -/
def objStr (v : Option String) : String := v.getD "nan"

/-- Models Python str.strip: drop leading and trailing whitespace.  It is
implemented on the character list so that concrete proofs can evaluate it. -/
def pyStrip (s : String) : String :=
  String.mk (((s.data.dropWhile Char.isWhitespace).reverse.dropWhile Char.isWhitespace).reverse)

/-- One dataset row after the load-time coercions of app.py 18-36: date
parsed with errors=coerce (none is NaT), size_mean numeric-coerced,
organizations lowercased text (astype(str) leaves no nulls there), the
five outcome count columns numeric-coerced, the remaining text columns
kept as optional strings.  The participants_numeric column added at line
21 is an exact alias of size_mean and is modelled by reusing size_mean. -/
structure Row where
  title : Option String
  date : Option Int
  state : Option String
  organizations : String
  location : Option String
  locality : Option String
  lat : Option ℚ
  lon : Option ℚ
  size_mean : Option ℚ
  participant_injuries : Option ℚ
  police_injuries : Option ℚ
  arrests : Option ℚ
  participant_deaths : Option ℚ
  police_deaths : Option ℚ
  property_damage : Option String
  deriving DecidableEq

/-- The six callback inputs of filter_data (app.py 516-519).  A none date
bound models the falsy Python values (None or empty string). -/
structure FilterSpec where
  start_date : Option Int
  end_date : Option Int
  size_filter : String
  org_search : String
  state_filter : List String
  any_outcomes_filter : List String
  deriving DecidableEq

/-- app.py 525-526: the date constraint applies only when both bounds are
truthy; pandas comparisons against NaT are false, so a row with a missing
date never passes an applied date constraint. -/
def dateMask (spec : FilterSpec) (r : Row) : Bool :=
  match spec.start_date, spec.end_date with
  | some s, some e =>
    match r.date with
    | some d => decide (s ≤ d) && decide (d ≤ e)
    | none => false
  | _, _ => true

/-- app.py 527-530: size-presence mode; any value other than has or no
leaves the mask unchanged. -/
def sizeMask (spec : FilterSpec) (r : Row) : Bool :=
  if spec.size_filter = "has" then r.size_mean.isSome
  else if spec.size_filter = "no" then r.size_mean.isNone
  else true

/-- app.py 532: comma-split terms, stripped, empties dropped, lowercased. -/
def orgTerms (s : String) : List String :=
  ((s.splitOn ",").filter (fun o => pyStrip o ≠ "")).map (fun o => strLower (pyStrip o))

/-- Substring containment; models the pandas str.contains call of app.py
534-535, whose pattern is an alternation of regex-escaped literal terms. -/
def strContains (hay needle : String) : Bool := decide (List.IsInfix needle.data hay.data)

/-- app.py 531-535: with a truthy search string and at least one nonempty
term, keep rows whose organizations text contains any term. -/
def orgMask (spec : FilterSpec) (r : Row) : Bool :=
  if spec.org_search ≠ "" then
    let terms := orgTerms spec.org_search
    if terms ≠ [] then terms.any (fun t => strContains r.organizations t) else true
  else true

/-- app.py 536-537: category membership; a missing state is in no list. -/
def stateMask (spec : FilterSpec) (r : Row) : Bool :=
  if spec.state_filter ≠ [] then
    match r.state with
    | some st => spec.state_filter.contains st
    | none => false
  else true

/-- Models pd.to_numeric(col, errors=coerce).fillna(0) applied to an
already numeric-coerced column: identity on the value, 0 for missing. -/
def numOrZero (v : Option ℚ) : ℚ := v.getD 0

/-- app.py 540-552, one branch per checklist value, selected values are
AND-accumulated into the mask by the loop.  The astype(str) placeholder
comparisons of the arrests and participant_injuries branches act on
columns that were numeric-coerced at load (app.py 31-36), so the string
form can never equal the placeholder word (strLower_pandasStr_ne). -/
def outcomeMask (r : Row) (o : String) : Bool :=
  if o = "arrests_any" then
    r.arrests.isSome && decide (strLower (pandasStr r.arrests) ≠ "unspecified")
      && decide (0 < numOrZero r.arrests)
  else if o = "participant_injuries_any" then
    r.participant_injuries.isSome
      && decide (strLower (pandasStr r.participant_injuries) ≠ "unspecified")
      && decide (0 < numOrZero r.participant_injuries)
  else if o = "police_injuries_any" then
    r.police_injuries.isSome && decide (0 < numOrZero r.police_injuries)
  else if o = "property_damage_any" then
    r.property_damage.isSome && decide (pyStrip (objStr r.property_damage) ≠ "")
  else if o = "participant_deaths_any" then
    r.participant_deaths.isSome && decide (0 < numOrZero r.participant_deaths)
  else if o = "police_deaths_any" then
    r.police_deaths.isSome && decide (0 < numOrZero r.police_deaths)
  else true

/-- The conjunction of all filter constraints of app.py 522-552. -/
def rowMask (spec : FilterSpec) (r : Row) : Bool :=
  dateMask spec r && sizeMask spec r && orgMask spec r && stateMask spec r
    && spec.any_outcomes_filter.all (outcomeMask r)

/-- app.py 516-579: the vectorized mask applied once to the loaded
dataset, preserving source order (stable filter).  The derived
location_label column of the output is best_location_filter of each row. -/
def filter_data (dataset : List Row) (spec : FilterSpec) : List Row :=
  dataset.filter (rowMask spec)

/-- The usability test shared by both best_location helpers (app.py
565-566, 568-569, 587-588, 590-591): the stripped text is truthy and its
lowercase form is not the literal string nan. -/
def usableText (v : Option String) : Prop :=
  pyStrip (objStr v) ≠ "" ∧ strLower (pyStrip (objStr v)) ≠ "nan"

instance usableTextDecidable (v : Option String) : Decidable (usableText v) :=
  inferInstanceAs (Decidable (_ ∧ _))

/-- ISO rendering of a timestamp's calendar date, modelled injectively on
the day ordinal; both best_location helpers share it. -/
def dateStr (d : Int) : String := toString d

def dateStrOrEmpty : Option Int → String
  | some d => dateStr d
  | none => ""

def dateStrOrUnknown : Option Int → String
  | some d => dateStr d
  | none => "Unknown"

/-- app.py 564-573, the best_location helper inside filter_data.  The
dict-get defaults of the source are unreachable because every column
exists after load, and str() of a missing cell renders as nan; a missing
date renders as the empty string in the state-date fallback. -/
def best_location_filter (r : Row) : String :=
  if usableText r.location then pyStrip (objStr r.location)
  else if usableText r.locality then pyStrip (objStr r.locality)
  else objStr r.state ++ ", " ++ dateStrOrEmpty r.date

/-- app.py 586-595, the best_location helper inside
aggregate_events_for_map: identical to the filter version except that a
missing date renders as Unknown instead of the empty string (the
different dict-get defaults are again unreachable). -/
def best_location_map (r : Row) : String :=
  if usableText r.location then pyStrip (objStr r.location)
  else if usableText r.locality then pyStrip (objStr r.locality)
  else objStr r.state ++ ", " ++ dateStrOrUnknown r.date

/-- app.py 598-599: the label column recomputed inside the aggregator,
with the replace of the empty string by Unknown (the fillna is a no-op on
the apply output). -/
def mapLabel (r : Row) : String :=
  let l := best_location_map r
  if l = "" then "Unknown" else l

/-- app.py 611-612: a row survives the dropna on lat and lon. -/
def geolocatable (r : Row) : Bool := r.lat.isSome && r.lon.isSome

def geoRows (dff : List Row) : List Row := dff.filter geolocatable

/-- One aggregated map group (app.py 615-622).  The purely presentational
string aggregations (event_list, joined titles, hover, text) are omitted;
count is the size aggregation over the title column, i.e. the number of
member rows, and lat and lon are the first member's coordinates. -/
structure MapGroup where
  label : String
  members : List Row
  lat : Option ℚ
  lon : Option ℚ
  count : Nat
  size_mean : Option ℚ
  deriving DecidableEq

/-- Mean of the non-null size_mean values, NaN (none) when there is none
(app.py 621). -/
def meanOfSizes (rows : List Row) : Option ℚ :=
  let xs := rows.filterMap Row.size_mean
  if xs = [] then none else some (xs.sum / xs.length)

/-- app.py 582-637: recompute the label column, drop rows without both
coordinates, group by label.  pandas groupby sorts the group keys; key
order is modelled as first occurrence, a permutation no claim observes. -/
def aggregate_events_for_map (dff : List Row) : List MapGroup :=
  let dm := geoRows dff
  ((dm.map mapLabel).dedup).map (fun k =>
    let ms := dm.filter (fun r => mapLabel r == k)
    { label := k, members := ms, lat := ms.head?.bind Row.lat,
      lon := ms.head?.bind Row.lon, count := ms.length,
      size_mean := meanOfSizes ms })

/-- app.py 803-805: bubble sizeref computed from the groups having a mean
size; none when no such group exists (the trace is skipped then). -/
def sizeref (agg : List MapGroup) : Option ℚ :=
  match (agg.filterMap MapGroup.size_mean).max? with
  | none => none
  | some m => some (if 0 < m then 2 * m / (50 * 50 : ℚ) else 1)

/-- The non-NaT dates of the filtered set (pandas groupby and resample
both drop NaT index entries). -/
def validDates (dff : List Row) : List Int := dff.filterMap Row.date

/-- Dense run of calendar days from the minimum to the maximum of the
given days: the daily resample index. -/
def denseDays (ds : List Int) : List Int :=
  match ds.min?, ds.max? with
  | some lo, some hi => (List.range (hi + 1 - lo).toNat).map (fun i => lo + i)
  | _, _ => []

/-- app.py 858: the rows of the two-column date/participants_numeric frame
after dropna; participants_numeric is the size_mean alias. -/
def momentumRows (dff : List Row) : List (Int × ℚ) :=
  dff.filterMap (fun r =>
    match r.date, r.size_mean with
    | some d, some s => some (d, s)
    | _, _ => none)

/-- app.py 859-861: per-day sum times per-day count of the dropna frame. -/
def momentum (dff : List Row) (d : Int) : ℚ :=
  let xs := (momentumRows dff).filter (fun p => p.1 == d)
  (xs.map Prod.snd).sum * (xs.length : ℚ)

def momentumDays (dff : List Row) : List Int :=
  denseDays ((momentumRows dff).map Prod.fst)

def momentumSeries (dff : List Row) : List (Int × ℚ) :=
  (momentumDays dff).map (fun d => (d, momentum dff d))

/-- app.py 913: events on one calendar day (resample drops NaT rows). -/
def dailyCount (dff : List Row) (d : Int) : Nat :=
  (dff.filter (fun r => r.date == some d)).length

def dailyCounts (dff : List Row) : List (Int × Nat) :=
  (denseDays (validDates dff)).map (fun d => (d, dailyCount dff d))

/-- Running totals used for app.py 934 (cumsum over the dense counts). -/
def runningTotals : List (Int × Nat) → Nat → List (Int × Nat)
  | [], _ => []
  | (d, c) :: rest, acc => (d, acc + c) :: runningTotals rest (acc + c)

def cumulativeCounts (dff : List Row) : List (Int × Nat) :=
  runningTotals (dailyCounts dff) 0

/-- app.py 946: per-day sum of size_mean; the pandas sum of an empty or
all-missing day is 0. -/
def daySum (dff : List Row) (d : Int) : ℚ :=
  ((dff.filter (fun r => r.date == some d)).filterMap Row.size_mean).sum

def participantCounts (dff : List Row) : List (Int × ℚ) :=
  (denseDays (validDates dff)).map (fun d => (d, daySum dff d))

def US_POPULATION : ℚ := 340100000

/-- app.py 675: max over the distinct valid dates of the per-day size
sums; none models the NaN max of an empty groupby (no row has a date). -/
def peakDay (dff : List Row) : Option ℚ :=
  (((validDates dff).dedup).map (daySum dff)).max?

/-- app.py 676: Python treats NaN as truthy, so an undefined peak
propagates NaN into the ratio; only a zero (falsy) peak yields the
literal 0 of the else branch. -/
def percent_us_pop (dff : List Row) : Option ℚ :=
  match peakDay dff with
  | none => none
  | some p => if p = 0 then some 0 else some (p / US_POPULATION * 100)

/-- app.py 677: NaN-skipping column mean, NaN (none) when no size is
present. -/
def mean_size (dff : List Row) : Option ℚ :=
  let xs := dff.filterMap Row.size_mean
  if xs = [] then none else some (xs.sum / xs.length)

/-- app.py 678-680. -/
def percent_no_size (dff : List Row) : ℚ :=
  if 0 < dff.length then
    (100 * ((dff.filter (fun r => r.size_mean.isNone)).length : ℚ)) / dff.length
  else 0

/-- app.py 683: max size when any is present, else the literal 0. -/
def largest_event (dff : List Row) : ℚ :=
  if dff.all (fun r => r.size_mean.isNone) then 0
  else ((dff.filterMap Row.size_mean).max?).getD 0

/-- app.py 684: the all-null guard returns 0, otherwise the same groupby
max as peakDay (still NaN when no valid date exists). -/
def largest_day (dff : List Row) : Option ℚ :=
  if dff.all (fun r => r.size_mean.isNone) then some 0 else peakDay dff

def noDataMsg : String := "No events with valid location data for the selected filters."

/-- True when app.py 779 short-circuits: the lat column or the lon column
of the filtered set is entirely null (vacuously true for an empty set;
the missing-column disjuncts are unreachable). -/
def mapGuard (dff : List Row) : Bool :=
  dff.all (fun r => r.lat.isNone) || dff.all (fun r => r.lon.isNone)

/-- True when app.py 901-906 degrades the three date-bucketed figures to
empty ones: the date column is entirely null (the dtype and presence
disjuncts are unreachable). -/
def dateGuard (dff : List Row) : Bool := dff.all (fun r => r.date.isNone)

/-- The outputs of the update_all callback that the specification talks
about.  Figures are modelled by the series they plot, none being the
empty figure; the two header KPI boxes are modelled by their values, none
being the empty children lists of the short-circuit branch. -/
structure UpdateOutput where
  totalEvents : Nat
  percentUsPop : Option ℚ
  percentNoSize : ℚ
  meanSize : Option ℚ
  largestEventKpi : Option ℚ
  largestDayKpi : Option (Option ℚ)
  noDataMessage : Option String
  mapGroups : Option (List MapGroup)
  momentumFig : Option (List (Int × ℚ))
  dailyFig : Option (List (Int × Nat))
  cumulativeFig : Option (List (Int × Nat))
  participantFig : Option (List (Int × ℚ))
  deriving DecidableEq

/-- app.py 661-1004: the callback body, minus figure styling and the
json serialization of the store. -/
def update_all (dataset : List Row) (spec : FilterSpec) : UpdateOutput :=
  let dff := filter_data dataset spec
  if mapGuard dff then
    { totalEvents := dff.length
      percentUsPop := percent_us_pop dff
      percentNoSize := percent_no_size dff
      meanSize := mean_size dff
      largestEventKpi := none
      largestDayKpi := none
      noDataMessage := some noDataMsg
      mapGroups := none
      momentumFig := none
      dailyFig := none
      cumulativeFig := none
      participantFig := none }
  else
    { totalEvents := dff.length
      percentUsPop := percent_us_pop dff
      percentNoSize := percent_no_size dff
      meanSize := mean_size dff
      largestEventKpi := some (largest_event dff)
      largestDayKpi := some (largest_day dff)
      noDataMessage := none
      mapGroups := some (aggregate_events_for_map dff)
      momentumFig := some (momentumSeries dff)
      dailyFig := if dateGuard dff then none else some (dailyCounts dff)
      cumulativeFig := if dateGuard dff then none else some (cumulativeCounts dff)
      participantFig := if dateGuard dff then none else some (participantCounts dff) }

/-- Rendering of a scalar KPI value; models the Python float format of
app.py 755, whose output for NaN is the string nan (commas and rounding
of genuine numbers are not modelled since no claim observes them). -/
def renderKpi : Option ℚ → String
  | none => "nan"
  | some q => String.mk (ratChars q)

/-- Modelled from the spec: the dataset file ccc_anti_trump.csv is not
under src; section 6 of the specification lists the column set the code
consumes, which stands in for the full original column set here. -/
def csv_columns : List String :=
  ["date", "size_mean", "targets", "organizations", "state",
   "participant_injuries", "police_injuries", "arrests",
   "participant_deaths", "police_deaths", "property_damage", "lat", "lon",
   "title", "location", "locality", "notables", "claims_summary",
   "participant_measures", "police_measures", "notes"]

/-- Columns of the loaded frame: app.py 21 adds the participants_numeric
alias column. -/
def loaded_columns : List String := csv_columns ++ ["participants_numeric"]

/-- Columns of a filter_data result: app.py 576 adds location_label. -/
def filtered_columns : List String := loaded_columns ++ ["location_label"]

/-- app.py 1115-1130: the full frame or the filtered frame, with only a
(never present) fallback column dropped before writing the CSV. -/
def export_columns (choice : String) : List String :=
  (if choice = "full" then loaded_columns else filtered_columns).filter
    (fun c => c ≠ "fallback")

/-- The derived columns that exist only for the dashboard internals: the
load-time alias and the per-filter label (spec section 3). -/
def derived_internal_columns : List String :=
  ["participants_numeric", "location_label"]

/-- Stated from the wording of claim C1: per-day size sum times the count
of ALL events of the day, null-size events included. -/
def claimMomentum (dff : List Row) (d : Int) : ℚ :=
  daySum dff d * ((dff.filter (fun r => r.date == some d)).length : ℚ)

/-- Stated from the wording of claim C4: the semantic per-flag condition
(field present and positive, or non-blank property-damage text). -/
def outcomeHolds (r : Row) (o : String) : Prop :=
  if o = "arrests_any" then ∃ x, r.arrests = some x ∧ 0 < x
  else if o = "participant_injuries_any" then
    ∃ x, r.participant_injuries = some x ∧ 0 < x
  else if o = "police_injuries_any" then ∃ x, r.police_injuries = some x ∧ 0 < x
  else if o = "property_damage_any" then
    ∃ s, r.property_damage = some s ∧ pyStrip s ≠ ""
  else if o = "participant_deaths_any" then
    ∃ x, r.participant_deaths = some x ∧ 0 < x
  else if o = "police_deaths_any" then ∃ x, r.police_deaths = some x ∧ 0 < x
  else True

/-- A row with every field missing; concrete rows below override fields. -/
def row0 : Row :=
  { title := none, date := none, state := none, organizations := "nan",
    location := none, locality := none, lat := none, lon := none,
    size_mean := none, participant_injuries := none, police_injuries := none,
    arrests := none, participant_deaths := none, police_deaths := none,
    property_damage := none }

/-- The all-defaults filter specification (no constraint active). -/
def specAll : FilterSpec :=
  { start_date := none, end_date := none, size_filter := "all",
    org_search := "", state_filter := [], any_outcomes_filter := [] }

/-- A date window missing every concrete row used below. -/
def specMiss : FilterSpec := { specAll with start_date := some 100, end_date := some 200 }

def rowM1 : Row := { row0 with date := some 0, size_mean := some 100, lat := some 1, lon := some 1 }

def rowM2 : Row := { row0 with date := some 0, lat := some 1, lon := some 1 }

def C1dff : List Row := [rowM1, rowM2]

def rowNoGeo : Row := { row0 with date := some 0, size_mean := some 5 }

def C2data : List Row := [rowNoGeo]

def rowGeo : Row := { row0 with date := some 0, size_mean := some 5, lat := some 1, lon := some 1 }

def C2dataB : List Row := [rowGeo]

def rowL : Row := { row0 with state := some "CA" }

def rowLBoston : Row := { row0 with location := some "Boston" }

def rowG1 : Row := { row0 with location := some "Boston", lat := some 1, lon := some 2, date := some 0 }

def rowG2 : Row := { row0 with location := some "Boston", lat := some 1, lon := some 2, date := some 0, size_mean := some 4 }

def rowG3 : Row := { row0 with location := some "Salem", lat := some 3, lon := some 4 }

def C6data : List Row := [rowG1, rowG2, rowG3]

def gBoston : MapGroup :=
  { label := "Boston", members := [rowG1, rowG2], lat := some 1, lon := some 2,
    count := 2, size_mean := some 4 }

def rowGeoZero : Row := { row0 with date := some 0, size_mean := some 0, lat := some 1, lon := some 1 }

def C7zero : List Row := [rowGeoZero]

def rowW : Row := { row0 with arrests := some 3, property_damage := some " fence broken " }

def specW : FilterSpec := { specAll with any_outcomes_filter := ["arrests_any", "property_damage_any"] }

def specDatesW : FilterSpec := { specAll with start_date := some 1, end_date := some 5 }

def specOneBoundW : FilterSpec := { specAll with start_date := some 1 }

def rowDateW : Row := { row0 with date := some 3 }

def rowGeoNoSize : Row := { row0 with date := some 0, lat := some 1, lon := some 1 }

def C8data : List Row := [rowGeoNoSize]

theorem natCharsAux_mem (fuel : Nat) : ∀ (n : Nat) (c : Char), c ∈ natCharsAux fuel n →
    ∃ k, k < 10 ∧ c = Char.ofNat (48 + k) := by
  induction fuel with
  | zero => intro n c hc; simp [natCharsAux] at hc
  | succ f ih =>
    intro n c hc
    match n with
    | 0 => simp [natCharsAux] at hc
    | m + 1 =>
      rw [natCharsAux] at hc
      rcases List.mem_append.1 hc with h | h
      · exact ih _ _ h
      · rw [List.mem_singleton] at h
        exact ⟨(m + 1) % 10, Nat.mod_lt _ (by norm_num), h⟩

theorem toLower_digit : ∀ k < 10, Char.toLower (Char.ofNat (48 + k)) ≠ 'u' := by decide

theorem natChars_ne_nil (n : Nat) : natChars n ≠ [] := by
  match n with
  | 0 => simp [natChars]
  | m + 1 => simp [natChars, natCharsAux]

theorem natChars_mem (n : Nat) (c : Char) (hc : c ∈ natChars n) :
    ∃ k, k < 10 ∧ c = Char.ofNat (48 + k) := by
  rw [natChars] at hc
  split at hc
  · rw [List.mem_singleton] at hc
    exact ⟨0, by norm_num, hc⟩
  · exact natCharsAux_mem _ _ _ hc

theorem intChars_ne_nil (i : Int) : intChars i ≠ [] := by
  rw [intChars]; split
  · simp
  · exact natChars_ne_nil _

theorem intChars_toLower (i : Int) (c : Char) (hc : c ∈ intChars i) :
    Char.toLower c ≠ 'u' := by
  rw [intChars] at hc
  split at hc
  · rcases List.mem_cons.1 hc with h | h
    · rw [h]; decide
    · obtain ⟨k, hk, rfl⟩ := natChars_mem _ _ h
      exact toLower_digit k hk
  · obtain ⟨k, hk, rfl⟩ := natChars_mem _ _ hc
    exact toLower_digit k hk

theorem ratChars_head (q : ℚ) :
    ∃ c l, ratChars q = c :: l ∧ Char.toLower c ≠ 'u' := by
  obtain ⟨c, l, hl⟩ := List.exists_cons_of_ne_nil (intChars_ne_nil q.num)
  refine ⟨c, l ++ (if q.den = 1 then [] else '/' :: natChars q.den), ?_, ?_⟩
  · rw [ratChars, hl]; rfl
  · exact intChars_toLower q.num c (hl ▸ List.mem_cons_self c l)

theorem unspecified_data :
    ("unspecified").data = 'u' :: ['n', 's', 'p', 'e', 'c', 'i', 'f', 'i', 'e', 'd'] := by
  decide

/-- The key vacuity fact behind the placeholder comparisons of app.py
542/544: the string form of a numeric-coerced cell is nan or a decimal
rendering, neither of which lowercases to the placeholder word. -/
theorem strLower_pandasStr_ne (v : Option ℚ) :
    strLower (pandasStr v) ≠ "unspecified" := by
  match v with
  | none => decide
  | some q =>
    obtain ⟨c, l, hq, hc⟩ := ratChars_head q
    intro h
    have hd : ((ratChars q).map Char.toLower) = ("unspecified").data :=
      congrArg String.data h
    rw [hq, unspecified_data, List.map_cons] at hd
    injection hd with h1 h2
    exact hc h1

theorem numericFlagStr_iff (v : Option ℚ) :
    (v.isSome && decide (strLower (pandasStr v) ≠ "unspecified")
        && decide (0 < numOrZero v)) = true
      ↔ ∃ x, v = some x ∧ 0 < x := by
  cases v with
  | none => simp [numOrZero]
  | some x => simp [numOrZero, strLower_pandasStr_ne]

theorem numericFlag_iff (v : Option ℚ) :
    (v.isSome && decide (0 < numOrZero v)) = true ↔ ∃ x, v = some x ∧ 0 < x := by
  cases v <;> simp [numOrZero]

theorem textFlag_iff (v : Option String) :
    (v.isSome && decide (pyStrip (objStr v) ≠ "")) = true
      ↔ ∃ s, v = some s ∧ pyStrip s ≠ "" := by
  cases v <;> simp [objStr]

theorem outcomeMask_iff (r : Row) (o : String) :
    outcomeMask r o = true ↔ outcomeHolds r o := by
  unfold outcomeMask outcomeHolds
  split_ifs
  · exact numericFlagStr_iff r.arrests
  · exact numericFlagStr_iff r.participant_injuries
  · exact numericFlag_iff r.police_injuries
  · exact textFlag_iff r.property_damage
  · exact numericFlag_iff r.participant_deaths
  · exact numericFlag_iff r.police_deaths
  · simp

theorem agg_labels (dff : List Row) :
    (aggregate_events_for_map dff).map MapGroup.label
      = ((geoRows dff).map mapLabel).dedup := by
  unfold aggregate_events_for_map
  rw [List.map_map]
  show List.map (fun k => k) (((geoRows dff).map mapLabel).dedup) = _
  exact List.map_id _

theorem agg_nodup (dff : List Row) :
    ((aggregate_events_for_map dff).map MapGroup.label).Nodup := by
  rw [agg_labels]; exact List.nodup_dedup _

theorem agg_mem (dff : List Row) (g : MapGroup) (hg : g ∈ aggregate_events_for_map dff) :
    g.members = (geoRows dff).filter (fun r => mapLabel r == g.label) := by
  unfold aggregate_events_for_map at hg
  obtain ⟨k, hk, rfl⟩ := List.mem_map.1 hg
  rfl

theorem agg_cover (dff : List Row) : ∀ r ∈ geoRows dff,
    ∃ g ∈ aggregate_events_for_map dff, r ∈ g.members ∧ g.label = mapLabel r := by
  intro r hr
  unfold aggregate_events_for_map
  refine ⟨_, List.mem_map_of_mem _ (List.mem_dedup.2 (List.mem_map_of_mem mapLabel hr)),
    ?_, rfl⟩
  simp [List.mem_filter, hr]

theorem agg_count_sum (dff : List Row) :
    ((aggregate_events_for_map dff).map MapGroup.count).sum = (geoRows dff).length := by
  unfold aggregate_events_for_map
  rw [List.map_map]
  have h1 : (MapGroup.count ∘ fun k =>
      ({ label := k,
         members := (geoRows dff).filter (fun r => mapLabel r == k),
         lat := ((geoRows dff).filter (fun r => mapLabel r == k)).head?.bind Row.lat,
         lon := ((geoRows dff).filter (fun r => mapLabel r == k)).head?.bind Row.lon,
         count := ((geoRows dff).filter (fun r => mapLabel r == k)).length,
         size_mean := meanOfSizes ((geoRows dff).filter (fun r => mapLabel r == k)) } : MapGroup))
      = fun k => ((geoRows dff).map mapLabel).count k := by
    funext k
    show ((geoRows dff).filter (fun r => mapLabel r == k)).length
      = ((geoRows dff).map mapLabel).count k
    rw [List.count, List.countP_map, ← List.countP_eq_length_filter]
    rfl
  rw [h1]
  rw [List.sum_map_count_dedup_eq_length, List.length_map]

theorem update_all_fields (dataset : List Row) (spec : FilterSpec) :
    (update_all dataset spec).totalEvents = (filter_data dataset spec).length
      ∧ (update_all dataset spec).meanSize = mean_size (filter_data dataset spec)
      ∧ (update_all dataset spec).percentUsPop = percent_us_pop (filter_data dataset spec)
      ∧ (update_all dataset spec).percentNoSize = percent_no_size (filter_data dataset spec) := by
  simp only [update_all]
  split <;> exact ⟨rfl, rfl, rfl, rfl⟩

/-- C4: with one or more outcome flags selected, the full row mask passes
exactly when every other filter passes and, for every selected flag, the
flag's numeric field is present and strictly positive (the placeholder
comparison is vacuous because placeholders were already nulled by the
load-time numeric coercion), except the property-damage flag which needs
present, non-blank text; selected flags are intersected, not unioned. -/
theorem C4_outcome_flags (spec : FilterSpec) (r : Row)
    (h : spec.any_outcomes_filter ≠ []) :
    rowMask spec r = true ↔
      (dateMask spec r = true ∧ sizeMask spec r = true ∧ orgMask spec r = true
        ∧ stateMask spec r = true
        ∧ ∀ o ∈ spec.any_outcomes_filter, outcomeHolds r o) := by
  unfold rowMask
  simp only [Bool.and_eq_true, List.all_eq_true, outcomeMask_iff, and_assoc]

theorem C4_outcome_flags_witness : rowMask specW rowW = true :=
  (C4_outcome_flags specW rowW (by decide)).mpr
    ⟨rfl, rfl, rfl, rfl, by
      intro o ho
      have hol : o = "arrests_any" ∨ o = "property_damage_any" := by
        simpa [specW, specAll] using ho
      rcases hol with h | h <;> subst h
      · exact (outcomeMask_iff rowW "arrests_any").1 (by with_unfolding_all decide)
      · exact (outcomeMask_iff rowW "property_damage_any").1 (by with_unfolding_all decide)⟩

/-- C5: when both bounds are present the date constraint keeps exactly the
rows whose (present) date lies in the inclusive range; when either bound
is absent no date constraint is applied at all. -/
theorem C5_date_range (spec : FilterSpec) (r : Row) :
    (∀ s e, spec.start_date = some s → spec.end_date = some e →
        (dateMask spec r = true ↔ ∃ d, r.date = some d ∧ s ≤ d ∧ d ≤ e))
      ∧ ((spec.start_date = none ∨ spec.end_date = none) → dateMask spec r = true) := by
  constructor
  · intro s e hs he
    unfold dateMask
    rw [hs, he]
    rcases hd : r.date with _ | d <;> simp [hd]
  · intro h
    unfold dateMask
    rcases h with h | h
    · rw [h]
    · rw [h]
      rcases spec.start_date with _ | s <;> rfl

theorem C5_date_range_witness :
    dateMask specDatesW rowDateW = true ∧ dateMask specOneBoundW rowDateW = true :=
  ⟨((C5_date_range specDatesW rowDateW).1 1 5 rfl rfl).mpr ⟨3, rfl, by norm_num, by norm_num⟩,
   (C5_date_range specOneBoundW rowDateW).2 (Or.inr rfl)⟩

/-- C6: map aggregation partitions the geolocatable rows of the filtered
set: group labels are pairwise distinct, every geolocatable row belongs to
the group carrying its own label, members of a group are geolocatable rows
carrying the group's label, and the group sizes add up to the number of
geolocatable rows. -/
theorem C6_map_partition (dff : List Row) :
    ((aggregate_events_for_map dff).map MapGroup.label).Nodup
      ∧ (∀ r ∈ geoRows dff, ∃ g ∈ aggregate_events_for_map dff,
          r ∈ g.members ∧ g.label = mapLabel r)
      ∧ (∀ g ∈ aggregate_events_for_map dff, ∀ r ∈ g.members,
          r ∈ geoRows dff ∧ mapLabel r = g.label)
      ∧ ((aggregate_events_for_map dff).map MapGroup.count).sum = (geoRows dff).length := by
  refine ⟨agg_nodup dff, agg_cover dff, ?_, agg_count_sum dff⟩
  intro g hg r hr
  rw [agg_mem dff g hg, List.mem_filter] at hr
  exact ⟨hr.1, by simpa using hr.2⟩

theorem C6_map_partition_witness :
    ((aggregate_events_for_map C6data).map MapGroup.count).sum = (geoRows C6data).length
      ∧ (rowG1 ∈ geoRows C6data ∧ mapLabel rowG1 = gBoston.label) :=
  ⟨(C6_map_partition C6data).2.2.2,
   (C6_map_partition C6data).2.2.1 gBoston (by with_unfolding_all decide) rowG1
     (by with_unfolding_all decide)⟩

theorem momentumRows_snd (dff : List Row) (d : Int) :
    ((momentumRows dff).filter (fun p => p.1 == d)).map Prod.snd
      = (dff.filter (fun r => r.date == some d && r.size_mean.isSome)).filterMap
          Row.size_mean := by
  induction dff with
  | nil => rfl
  | cons r rest ih =>
    rcases hd : r.date with _ | d0
    · have h1 : momentumRows (r :: rest) = momentumRows rest := by
        unfold momentumRows
        rw [List.filterMap_cons]
        simp [hd]
      have hcond : ((r.date == some d) && r.size_mean.isSome) = false := by
        rw [hd]
        rfl
      rw [h1, List.filter_cons, hcond]
      simpa using ih
    · rcases hs : r.size_mean with _ | s
      · have h1 : momentumRows (r :: rest) = momentumRows rest := by
          unfold momentumRows
          rw [List.filterMap_cons]
          simp [hd, hs]
        have hcond : ((r.date == some d) && r.size_mean.isSome) = false := by
          rw [hs]
          simp
        rw [h1, List.filter_cons, hcond]
        simpa using ih
      · have h1 : momentumRows (r :: rest) = (d0, s) :: momentumRows rest := by
          unfold momentumRows
          rw [List.filterMap_cons]
          simp [hd, hs]
        rw [h1]
        by_cases hdd : d0 = d
        · subst hdd
          have hcl : (((d0, s).1 == d0) = true) := by simp
          have hcr : ((r.date == some d0 && r.size_mean.isSome) = true) := by
            rw [hd, hs]
            simp
          rw [List.filter_cons, List.filter_cons, hcl, hcr]
          simp [List.filterMap_cons, hs, ih]
        · have hcl : (((d0, s).1 == d) = false) := by simp [hdd]
          have hcr : ((r.date == some d && r.size_mean.isSome) = false) := by
            rw [hd]
            simp [hdd]
          rw [List.filter_cons, List.filter_cons, hcl, hcr]
          simpa using ih

theorem filterMap_isSome_length (l : List Row)
    (h : ∀ r ∈ l, r.size_mean.isSome = true) :
    (l.filterMap Row.size_mean).length = l.length := by
  induction l with
  | nil => rfl
  | cons r rest ih =>
    obtain ⟨s, hs⟩ := Option.isSome_iff_exists.1 (h r (List.mem_cons_self r rest))
    rw [List.filterMap_cons, hs]
    simp only [List.length_cons]
    rw [ih (fun a ha => h a (List.mem_cons_of_mem r ha))]

theorem momentumRows_count (dff : List Row) (d : Int) :
    ((momentumRows dff).filter (fun p => p.1 == d)).length
      = (dff.filter (fun r => r.date == some d && r.size_mean.isSome)).length := by
  have h := congrArg List.length (momentumRows_snd dff d)
  rw [List.length_map] at h
  rw [h, filterMap_isSome_length]
  intro r hr
  have h2 := (List.mem_filter.1 hr).2
  rw [Bool.and_eq_true] at h2
  exact h2.2

/-- C1 counterexample: on day 0 of the dense resample range, the code's
momentum is 100 (sum 100 times the 1 event surviving the dropna), while
the claimed value counts both events of the day and yields 200. -/
theorem C1_momentum_counterexample :
    0 ∈ momentumDays C1dff ∧ momentum C1dff 0 = 100 ∧ claimMomentum C1dff 0 = 200
      ∧ momentum C1dff 0 ≠ claimMomentum C1dff 0 := by
  with_unfolding_all decide

/-- C1 amended: for every filtered row set and day, momentum equals the
per-day sum of size_mean times the count restricted to the events of the
day that have BOTH a non-null date and a non-null size_mean (the dropna
of app.py 858 removes the others before the resample counts them). -/
theorem C1_momentum_amended (dff : List Row) (d : Int) :
    momentum dff d =
      ((dff.filter (fun r => r.date == some d && r.size_mean.isSome)).filterMap
          Row.size_mean).sum
        * (((dff.filter (fun r => r.date == some d && r.size_mean.isSome)).length : ℚ)) := by
  simp only [momentum]
  rw [momentumRows_snd, momentumRows_count]

/-- C2 counterexample: a one-row filtered set with no coordinates at all
reaches the short-circuit of app.py 779, so the daily, cumulative and
participant figures are returned empty rather than computed, and the two
header KPI boxes are returned empty as well. -/
theorem C2_no_geo_counterexample :
    (filter_data C2data specAll).length = 1
      ∧ (update_all C2data specAll).dailyFig = none
      ∧ (update_all C2data specAll).cumulativeFig = none
      ∧ (update_all C2data specAll).participantFig = none
      ∧ (update_all C2data specAll).largestEventKpi = none := by
  with_unfolding_all decide

/-- C2 amended: rows lacking coordinates are excluded from the map groups
but are counted by the scalar KPIs, and when at least one latitude and
one longitude are present (and some date is valid) the three date series
are computed over ALL filtered rows, coordinates or not; however when the
lat or lon column is entirely null the callback short-circuits and the
four time-series figures are returned empty while the scalar KPIs are
still the computed ones. -/
theorem C2_no_geo_amended (dataset : List Row) (spec : FilterSpec) :
    ((update_all dataset spec).totalEvents = (filter_data dataset spec).length)
      ∧ ((update_all dataset spec).meanSize = mean_size (filter_data dataset spec))
      ∧ (∀ g ∈ aggregate_events_for_map (filter_data dataset spec), ∀ r ∈ g.members,
          r.lat.isSome = true ∧ r.lon.isSome = true)
      ∧ (mapGuard (filter_data dataset spec) = true →
          (update_all dataset spec).dailyFig = none
            ∧ (update_all dataset spec).cumulativeFig = none
            ∧ (update_all dataset spec).participantFig = none
            ∧ (update_all dataset spec).momentumFig = none
            ∧ (update_all dataset spec).percentNoSize
                = percent_no_size (filter_data dataset spec))
      ∧ (mapGuard (filter_data dataset spec) = false →
          dateGuard (filter_data dataset spec) = false →
          (update_all dataset spec).dailyFig = some (dailyCounts (filter_data dataset spec))
            ∧ (update_all dataset spec).cumulativeFig
                = some (cumulativeCounts (filter_data dataset spec))
            ∧ (update_all dataset spec).participantFig
                = some (participantCounts (filter_data dataset spec))) := by
  refine ⟨(update_all_fields dataset spec).1, (update_all_fields dataset spec).2.1,
    ?_, ?_, ?_⟩
  · intro g hg r hr
    rw [agg_mem _ g hg, List.mem_filter] at hr
    have := hr.1
    rw [geoRows, List.mem_filter] at this
    have hb := this.2
    rw [geolocatable, Bool.and_eq_true] at hb
    exact hb
  · intro h
    simp [update_all, h]
  · intro h hdg
    simp [update_all, h, hdg]

theorem C2_no_geo_amended_witness :
    (update_all C2data specAll).dailyFig = none
      ∧ (update_all C2dataB specAll).dailyFig
          = some (dailyCounts (filter_data C2dataB specAll)) :=
  ⟨((C2_no_geo_amended C2data specAll).2.2.2.1 (by with_unfolding_all decide)).1,
   ((C2_no_geo_amended C2dataB specAll).2.2.2.2 (by with_unfolding_all decide)
     (by with_unfolding_all decide)).1⟩

theorem append_comma_ne (a b : String) : a ++ ", " ++ b ≠ "" := by
  intro h
  have hl := congrArg String.length h
  rw [String.length_append, String.length_append] at hl
  have h2 : (", ").length = 2 := rfl
  rw [h2] at hl
  simp [String.length_empty] at hl

theorem append_comma_unknown (s : String) : s ++ ", " ++ "Unknown" = s ++ ", Unknown" := by
  apply String.ext
  rw [String.data_append, String.data_append, String.data_append, List.append_assoc]
  exact congrArg (s.data ++ ·) (by decide)

theorem best_location_map_ne_empty (r : Row) : best_location_map r ≠ "" := by
  unfold best_location_map
  split
  · next h => exact h.1
  · split
    · next h => exact h.1
    · exact append_comma_ne _ _

theorem mapLabel_eq_map (r : Row) : mapLabel r = best_location_map r := by
  unfold mapLabel
  rw [if_neg (best_location_map_ne_empty r)]

/-- C3 counterexample: for a record with unusable location and locality
and a missing date, the filtering label is the state followed by a bare
comma while the map-aggregation label ends in Unknown, so the two label
computations disagree on the same record. -/
theorem C3_label_counterexample :
    best_location_filter rowL ≠ mapLabel rowL
      ∧ best_location_filter rowL = "CA, "
      ∧ mapLabel rowL = "CA, Unknown" := by
  with_unfolding_all decide

/-- C3 amended: each label is a deterministic pure function of (location,
locality, state, date); the two computations agree on every record whose
location or locality is usable or whose date is present, and they differ
exactly on the remaining records, where filtering yields the state and a
bare comma and map aggregation appends Unknown instead. -/
theorem C3_label_amended (r : Row) :
    (∀ r2 : Row, r.location = r2.location → r.locality = r2.locality →
        r.state = r2.state → r.date = r2.date →
        best_location_filter r = best_location_filter r2 ∧ mapLabel r = mapLabel r2)
      ∧ (usableText r.location ∨ usableText r.locality ∨ r.date.isSome = true →
          best_location_filter r = mapLabel r)
      ∧ (¬ usableText r.location → ¬ usableText r.locality → r.date = none →
          best_location_filter r = objStr r.state ++ ", "
            ∧ mapLabel r = objStr r.state ++ ", Unknown") := by
  refine ⟨?_, ?_, ?_⟩
  · intro r2 h1 h2 h3 h4
    constructor
    · unfold best_location_filter
      rw [h1, h2, h3, h4]
    · rw [mapLabel_eq_map, mapLabel_eq_map]
      unfold best_location_map
      rw [h1, h2, h3, h4]
  · intro h
    rw [mapLabel_eq_map]
    unfold best_location_filter best_location_map
    by_cases hl : usableText r.location
    · rw [if_pos hl, if_pos hl]
    · rw [if_neg hl, if_neg hl]
      by_cases hl2 : usableText r.locality
      · rw [if_pos hl2, if_pos hl2]
      · rw [if_neg hl2, if_neg hl2]
        rcases h with h | h | h
        · exact absurd h hl
        · exact absurd h hl2
        · obtain ⟨d, hd⟩ := Option.isSome_iff_exists.1 h
          rw [hd]
          rfl
  · intro hnl hnl2 hd
    rw [mapLabel_eq_map]
    unfold best_location_filter best_location_map
    rw [if_neg hnl, if_neg hnl, if_neg hnl2, if_neg hnl2, hd]
    constructor
    · rw [show dateStrOrEmpty none = "" from rfl, String.append_empty]
    · rw [show dateStrOrUnknown none = "Unknown" from rfl, append_comma_unknown]

theorem C3_label_amended_witness :
    best_location_filter rowLBoston = mapLabel rowLBoston
      ∧ (best_location_filter rowL = objStr rowL.state ++ ", "
          ∧ mapLabel rowL = objStr rowL.state ++ ", Unknown") :=
  ⟨(C3_label_amended rowLBoston).2.1 (Or.inl (by with_unfolding_all decide)),
   (C3_label_amended rowL).2.2 (by with_unfolding_all decide)
     (by with_unfolding_all decide) rfl⟩

/-- C7 counterexample: when the filter matches no rows the peak day is
the NaN max of an empty groupby; NaN is truthy in Python, so the ratio
propagates NaN instead of the claimed defined default 0. -/
theorem C7_ratio_counterexample :
    filter_data C2dataB specMiss = []
      ∧ peakDay (filter_data C2dataB specMiss) = none
      ∧ (update_all C2dataB specMiss).percentUsPop = none
      ∧ (update_all C2dataB specMiss).percentUsPop ≠ some 0 := by
  with_unfolding_all decide

/-- C7 amended: percent_of_population is 100 times peak over the fixed
population when the peak is a nonzero number, 0 when the peak is exactly
zero, but NaN (propagated, not 0) when the peak is undefined; the percent
of missing sizes is 0 for an empty set; and the marker sizeref is the
defined positive value 1 whenever the maximum group mean size is
nonpositive. -/
theorem C7_ratio_amended (dataset : List Row) (spec : FilterSpec) :
    ((∀ p : ℚ, peakDay (filter_data dataset spec) = some p → p ≠ 0 →
        (update_all dataset spec).percentUsPop = some (p / US_POPULATION * 100))
      ∧ (peakDay (filter_data dataset spec) = some 0 →
          (update_all dataset spec).percentUsPop = some 0)
      ∧ (peakDay (filter_data dataset spec) = none →
          (update_all dataset spec).percentUsPop = none))
      ∧ ((filter_data dataset spec).length = 0 →
          (update_all dataset spec).percentNoSize = 0)
      ∧ (∀ m : ℚ,
          ((aggregate_events_for_map (filter_data dataset spec)).filterMap
              MapGroup.size_mean).max? = some m →
          m ≤ 0 →
            sizeref (aggregate_events_for_map (filter_data dataset spec)) = some 1
              ∧ (0:ℚ) < 1) := by
  have hp := (update_all_fields dataset spec).2.2.1
  have hn := (update_all_fields dataset spec).2.2.2
  refine ⟨⟨?_, ?_, ?_⟩, ?_, ?_⟩
  · intro p hpk hpne
    rw [hp]
    unfold percent_us_pop
    rw [hpk]
    simp [hpne]
  · intro hpk
    rw [hp]
    unfold percent_us_pop
    rw [hpk]
    simp
  · intro hpk
    rw [hp]
    unfold percent_us_pop
    rw [hpk]
  · intro hlen
    rw [hn]
    unfold percent_no_size
    rw [hlen]
    norm_num
  · intro m hm hle
    constructor
    · unfold sizeref
      rw [hm]
      simp [not_lt.2 hle]
    · norm_num

theorem C7_ratio_amended_witness :
    (update_all C2dataB specAll).percentUsPop = some (5 / US_POPULATION * 100)
      ∧ (update_all C7zero specAll).percentUsPop = some 0
      ∧ (update_all C2dataB specMiss).percentUsPop = none
      ∧ (update_all C2dataB specMiss).percentNoSize = 0
      ∧ sizeref (aggregate_events_for_map (filter_data C7zero specAll)) = some 1 :=
  ⟨(C7_ratio_amended C2dataB specAll).1.1 5 (by with_unfolding_all decide) (by norm_num),
   (C7_ratio_amended C7zero specAll).1.2.1 (by with_unfolding_all decide),
   (C7_ratio_amended C2dataB specMiss).1.2.2 (by with_unfolding_all decide),
   (C7_ratio_amended C2dataB specMiss).2.1 (by with_unfolding_all decide),
   ((C7_ratio_amended C7zero specAll).2.2 0 (by with_unfolding_all decide) (by norm_num)).1⟩

/-- C8 counterexample: a nonempty filtered set with no non-null size has
an undefined (NaN) mean, and the KPI renders as nan, not as zero. -/
theorem C8_mean_counterexample :
    (filter_data C8data specAll).length = 1
      ∧ (update_all C8data specAll).meanSize = none
      ∧ renderKpi (update_all C8data specAll).meanSize = "nan"
      ∧ renderKpi (update_all C8data specAll).meanSize ≠ "0" := by
  with_unfolding_all decide

/-- C8 amended: the mean-size KPI is the arithmetic mean of the non-null
size_mean values when at least one is present; when none is present the
mean is NaN and the KPI renders as the string nan rather than as zero. -/
theorem C8_mean_amended (dataset : List Row) (spec : FilterSpec) :
    (∀ (x : ℚ) (xs : List ℚ),
        (filter_data dataset spec).filterMap Row.size_mean = x :: xs →
        (update_all dataset spec).meanSize
          = some ((x :: xs).sum / (((x :: xs).length : ℚ))))
      ∧ ((filter_data dataset spec).filterMap Row.size_mean = [] →
          (update_all dataset spec).meanSize = none
            ∧ renderKpi ((update_all dataset spec).meanSize) = "nan") := by
  have hm := (update_all_fields dataset spec).2.1
  constructor
  · intro x xs h
    rw [hm]
    unfold mean_size
    simp only [h]
    simp
  · intro h
    rw [hm]
    unfold mean_size
    simp only [h]
    simp [renderKpi]

theorem C8_mean_amended_witness :
    (update_all C2dataB specAll).meanSize
        = some (([(5:ℚ)]).sum / ((([(5:ℚ)]).length : ℚ)))
      ∧ (update_all C8data specAll).meanSize = none :=
  ⟨(C8_mean_amended C2dataB specAll).1 5 [] (by with_unfolding_all decide),
   ((C8_mean_amended C8data specAll).2 (by with_unfolding_all decide)).1⟩

/-- C9 counterexample: a spec matching one coordinate-less row and a spec
matching no rows at all produce the identical no-data message component,
so the two states are not distinguished by that output. -/
theorem C9_message_counterexample :
    (filter_data C2data specAll).length = 1
      ∧ (filter_data C2data specMiss).length = 0
      ∧ (update_all C2data specAll).noDataMessage = some noDataMsg
      ∧ (update_all C2data specMiss).noDataMessage = some noDataMsg
      ∧ (update_all C2data specAll).noDataMessage
          = (update_all C2data specMiss).noDataMessage := by
  with_unfolding_all decide

/-- C9 amended: the message output equals one fixed string exactly when
the lat column or the lon column of the filtered set is entirely null,
which is vacuously the case for an empty set too; the message therefore
flags the no-geolocatable state but does not distinguish it from the
no-rows state. -/
theorem C9_message_amended (dataset : List Row) (spec : FilterSpec) :
    (update_all dataset spec).noDataMessage
      = (if mapGuard (filter_data dataset spec) then some noDataMsg else none) := by
  simp only [update_all]
  split <;> rfl

/-- C10 counterexample: the filtered CSV export keeps the derived
location_label column added by filter_data (only a nonexistent fallback
column is dropped), and both exports keep the load-time derived
participants_numeric alias. -/
theorem C10_export_counterexample :
    "location_label" ∈ export_columns "filtered"
      ∧ "location_label" ∈ derived_internal_columns
      ∧ "location_label" ∉ csv_columns
      ∧ "participants_numeric" ∈ export_columns "full"
      ∧ "participants_numeric" ∈ derived_internal_columns := by
  decide

/-- C10 amended: both exports contain every original dataset column, and
only those plus the derived columns actually present: the full export
adds the participants_numeric alias, the filtered export additionally the
location_label column; a fallback column would be dropped but the derived
internal columns are not. -/
theorem C10_export_amended :
    (∀ c ∈ csv_columns, c ∈ export_columns "full" ∧ c ∈ export_columns "filtered")
      ∧ export_columns "full" = csv_columns ++ ["participants_numeric"]
      ∧ export_columns "filtered"
          = csv_columns ++ ["participants_numeric", "location_label"]
      ∧ "fallback" ∉ export_columns "full"
      ∧ "fallback" ∉ export_columns "filtered" := by
  decide

theorem C10_export_amended_witness :
    "date" ∈ export_columns "full" ∧ "date" ∈ export_columns "filtered" :=
  C10_export_amended.1 "date" (by decide)

end CCCDash

